import Mathlib

/-
Verification of the session/pipeline registry of spreed-webrtc
(src/go/channelling/pipeline_manager.go).

The registry is embedded shallowly: the four Go maps become association
lists over `String` keys, the mutable `pipelineManager` struct becomes the
`PLMState` record, and each handler becomes a pure function from a state
(plus the inbound message) to a new state together with a trace of the
externally visible events it performs (lock acquisition/release and the
`Close` calls on sessions, sinks and pipelines).  Object identity of
sessions, sinks and pipelines — pointer identity in Go — is modelled by a
fresh-number counter `nextOid` threaded through the creation collaborators.
-/

set_option autoImplicit false

namespace Channelling

/-- Stand-in for the opaque Go `Sender` interface.  The manager never
inspects a sender, so any inhabited type with more than one element
faithfully represents it. -/
abbrev Sender := Nat

/-- Modelled from the spec: a `Session` is a participant handle with a
locally unique string identifier; its business logic (status, rooms) is an
external capability and does not influence the registry state. -/
structure Session where
  Id : String
  deriving Repr, DecidableEq

/-- Modelled from the spec: a `Sink` is a deliverable output channel with
an enabled/disabled state and a close operation.  `sid` models pointer
identity, `busId` records the external identifier it was created for. -/
structure Sink where
  sid : Nat
  busId : String
  enabled : Bool
  deriving Repr, DecidableEq

/-- Modelled from the spec: a `Pipeline` is a routed interaction object
keyed by a composite identifier, with a duration-based expiry deadline.
`pid` models pointer identity. -/
structure Pipeline where
  pid : Nat
  ns : String
  id : String
  sessionId : String
  expires : Nat
  deriving Repr, DecidableEq

/-- Modelled from the spec: `Refresh(duration)` extends the expiry
deadline from the current instant. -/
def Pipeline.Refresh (p : Pipeline) (now duration : Nat) : Pipeline :=
  { p with expires := now + duration }

/-- Modelled from the spec: `Expired()` holds once the expiry deadline has
passed. -/
def Pipeline.Expired (p : Pipeline) (now : Nat) : Bool :=
  decide (p.expires < now)

/-- The optional session payload of a `SessionCreateRequest`
(status blob and fake user identity). -/
structure SessionPayload where
  Status : String
  Userid : String
  deriving Repr, DecidableEq

/-- The optional room descriptor of a `SessionCreateRequest`. -/
structure RoomRequest where
  Name : String
  «Type» : String
  deriving Repr, DecidableEq

/-- The `sessionCreate` bus message: external identifier plus optional
session payload and room descriptor. -/
structure SessionCreateRequest where
  Id : String
  Session : Option SessionPayload
  Room : Option RoomRequest
  deriving Repr, DecidableEq

/-- A Go `map[string]V`, embedded as an association list.  All update
operations go through `Table.set` / `Table.erase`, which keep at most one
entry per key reachable by `Table.lookup`. -/
abbrev Table (V : Type) := List (String × V)

namespace Table

variable {V : Type}

/-- `m[k]` of the Go map: the first binding of `k`. -/
def lookup : Table V → String → Option V
  | [], _ => none
  | (k, v) :: tl, key => if k = key then some v else lookup tl key

/-- `delete(m, k)` of the Go map: drop every binding of `k`. -/
def erase : Table V → String → Table V
  | [], _ => []
  | (k, v) :: tl, key => if k = key then erase tl key else (k, v) :: erase tl key

/-- `m[k] = v` of the Go map: overwrite the binding of `k`. -/
def set (m : Table V) (key : String) (v : V) : Table V :=
  (key, v) :: m.erase key

/-- Number of bindings of `k` (used to state single-occupancy claims). -/
def countKey : Table V → String → Nat
  | [], _ => 0
  | (k, _) :: tl, key => (if k = key then 1 else 0) + countKey tl key

end Table

/-- Externally visible events performed by the manager's operations: lock
acquisition/release on the registry mutex, `Close` calls on sessions (by
local id), sinks and pipelines (by object identity), and the installation
of a freshly created session into the tables. -/
inductive Ev where
  | lock
  | unlock
  | closeSession (sid : String)
  | closeSink (sid : Nat)
  | closePipeline (pid : Nat)
  | installSession (sid : String)
  deriving Repr, DecidableEq

/-- `true` on the events that are `Close` calls on a session or a sink
(the calls the bus handlers may perform). -/
def Ev.isClose : Ev → Bool
  | .closeSession _ => true
  | .closeSink _ => true
  | _ => false

/-- `true` exactly on `closeSession` events. -/
def Ev.isSessionClose : Ev → Bool
  | .closeSession _ => true
  | _ => false

/-- `true` exactly on `closeSink` events. -/
def Ev.isSinkClose : Ev → Bool
  | .closeSink _ => true
  | _ => false

/-- Scanning a trace with the current lock depth `d`: does some event
satisfying `p` occur while the mutex is held (depth positive)? -/
def anyLockedSat (p : Ev → Bool) : List Ev → Nat → Bool
  | [], _ => false
  | .lock :: tl, d => anyLockedSat p tl (d + 1)
  | .unlock :: tl, d => anyLockedSat p tl (d - 1)
  | e :: tl, d => (p e && decide (0 < d)) || anyLockedSat p tl d

/-- Scanning a trace with the current lock depth `d`: does some event
satisfying `p` occur while the mutex is not held (depth zero)? -/
def anyUnlockedSat (p : Ev → Bool) : List Ev → Nat → Bool
  | [], _ => false
  | .lock :: tl, d => anyUnlockedSat p tl (d + 1)
  | .unlock :: tl, d => anyUnlockedSat p tl (d - 1)
  | e :: tl, d => (p e && decide (d = 0)) || anyUnlockedSat p tl d

/-- The state of the `pipelineManager` struct: the four registry maps, the
configured pipeline expiry duration, and the fresh-object counter that
models pointer identity of created sessions, sinks and pipelines. -/
structure PLMState where
  pipelineTable : Table Pipeline
  sessionTable : Table Session
  sessionByBusIDTable : Table Session
  sessionSinkTable : Table Sink
  duration : Nat
  nextOid : Nat
  deriving Repr, DecidableEq

/-- The local session identifier generated for the `n`-th created object. -/
def localId (n : Nat) : String :=
  "local-" ++ toString n

/-- Modelled from the spec: `CreateSession(parent, name) -> Session` of the
`SessionCreator` collaborator, producing a fresh session with a new unique
local identifier (modelled from the fresh-object counter). -/
def CreateSession (st : PLMState) : Session × PLMState :=
  ({ Id := localId st.nextOid }, { st with nextOid := st.nextOid + 1 })

/-- Modelled from the spec: `CreateSink(externalId) -> Sink` of the sink
factory collaborator, producing a fresh sink for the external identifier. -/
def CreateSink (st : PLMState) (busId : String) : Sink × PLMState :=
  ({ sid := st.nextOid, busId := busId, enabled := true },
   { st with nextOid := st.nextOid + 1 })

/-- Modelled from the spec: `NewPipeline(manager, namespace, id, session,
duration)` constructs a fresh pipeline whose expiry deadline starts one
duration from now. -/
def NewPipeline (st : PLMState) (now : Nat) (ns id : String) (session : Session)
    (duration : Nat) : Pipeline × PLMState :=
  ({ pid := st.nextOid, ns := ns, id := id, sessionId := session.Id,
     expires := now + duration },
   { st with nextOid := st.nextOid + 1 })

/-- The `PipelineNamespaceCall` constant of the source. -/
def PipelineNamespaceCall : String := "call"

/-- `NewPipelineManager`: empty tables, 30 minute expiry duration
(modelled in seconds). -/
def NewPipelineManager : PLMState :=
  { pipelineTable := [], sessionTable := [], sessionByBusIDTable := [],
    sessionSinkTable := [], duration := 30 * 60, nextOid := 0 }

/-- Second half of the `sessionCreate` handler (still under the lock):
create the new session, install it in the bus-id and session tables,
create a sink only when none was inherited from the displaced mapping,
and install the sink; then release the lock.  `closeEvs` are the `Close`
calls the first half performed under the lock. -/
def sessionCreateInstall (st : PLMState) (msg : SessionCreateRequest)
    (sink0 : Option Sink) (closeEvs : List Ev) : PLMState × List Ev :=
  let p := CreateSession st
  let newSession := p.1
  let st1 := p.2
  let st2 := { st1 with
    sessionByBusIDTable := st1.sessionByBusIDTable.set msg.Id newSession
    sessionTable := st1.sessionTable.set newSession.Id newSession }
  let q :=
    match sink0 with
    | some k => (k, st2)
    | none => CreateSink st2 msg.Id
  let sink := q.1
  let st3 := q.2
  let st4 := { st3 with sessionSinkTable := st3.sessionSinkTable.set newSession.Id sink }
  (st4, Ev.lock :: closeEvs ++ [Ev.installSession newSession.Id, Ev.unlock])

/-- The `sessionCreate` bus handler.  A message with an absent session
payload or empty external identifier is ignored.  Under the lock: if the
external identifier is already mapped, the prior session is removed from
the session table, its sink removed from the sink table, and both are
closed (in the Go source these `Close` calls happen before the mutex is
released); then the new session and its sink are installed.  The
post-unlock work (status, room join, broadcast) touches no registry
state. -/
def sessionCreate (st : PLMState) (msg : SessionCreateRequest) :
    PLMState × List Ev :=
  match msg.Session with
  | none => (st, [])
  | some _ =>
    if msg.Id = "" then (st, [])
    else
      match st.sessionByBusIDTable.lookup msg.Id with
      | some ps =>
        let sink0 := st.sessionSinkTable.lookup ps.Id
        let st1 := { st with
          sessionTable := st.sessionTable.erase ps.Id
          sessionSinkTable := st.sessionSinkTable.erase ps.Id }
        let closeEvs := Ev.closeSession ps.Id ::
          (match sink0 with
           | some k => [Ev.closeSink k.sid]
           | none => [])
        sessionCreateInstall st1 msg sink0 closeEvs
      | none => sessionCreateInstall st msg none []

/-- The `sessionClose` bus handler.  An empty identifier is ignored.
Under the lock: if the identifier is mapped, the mapping, the session and
its sink entry are removed and the sink is closed (in the Go source the
sink's `Close` happens before the mutex is released); the detached session
is closed after the lock is released. -/
def sessionClose (st : PLMState) (id : String) : PLMState × List Ev :=
  if id = "" then (st, [])
  else
    match st.sessionByBusIDTable.lookup id with
    | none => (st, [Ev.lock, Ev.unlock])
    | some s =>
      let st1 := { st with
        sessionByBusIDTable := st.sessionByBusIDTable.erase id
        sessionTable := st.sessionTable.erase s.Id }
      match st.sessionSinkTable.lookup s.Id with
      | some k =>
        ({ st1 with sessionSinkTable := st1.sessionSinkTable.erase s.Id },
         [Ev.lock, Ev.closeSink k.sid, Ev.unlock, Ev.closeSession s.Id])
      | none =>
        (st1, [Ev.lock, Ev.unlock, Ev.closeSession s.Id])

/-- `GetPipelineByID`: exact-match lookup in the pipeline table; on a miss
the Go source falls back to the first pipeline the map range yields
(a development hack), so the result is `(nil, false)` only when the table
is empty. -/
def GetPipelineByID (st : PLMState) (id : String) : Option Pipeline × Bool :=
  match st.pipelineTable.lookup id with
  | some p => (some p, true)
  | none =>
    match st.pipelineTable with
    | [] => (none, false)
    | (_, p) :: _ => (some p, true)

/-- `PipelineID`: `fmt.Sprintf("%s.%s.%s", namespace, session.Id, to)`;
the `sender` argument is ignored. -/
def PipelineID (ns : String) (sender : Sender) (session : Session)
    («to» : String) : String :=
  ns ++ "." ++ session.Id ++ "." ++ «to»

/-- `GetPipeline`: compute the composite identifier; under the lock, if a
pipeline is present (even if expired) refresh it and return it, otherwise
construct a new pipeline, insert it and return it. -/
def GetPipeline (st : PLMState) (now : Nat) (ns : String) (sender : Sender)
    (session : Session) («to» : String) : Pipeline × PLMState :=
  let id := PipelineID ns sender session «to»
  match st.pipelineTable.lookup id with
  | some p =>
    let p1 := p.Refresh now st.duration
    (p1, { st with pipelineTable := st.pipelineTable.set id p1 })
  | none =>
    let q := NewPipeline st now ns id session st.duration
    (q.1, { q.2 with pipelineTable := q.2.pipelineTable.set id q.1 })

/-- `FindSink`: under a read lock, return the sink mapped to `to` only if
it exists and its `Enabled()` is true; otherwise report "not found"
(`none`).  The operation reads the tables and never mutates them. -/
def FindSink (st : PLMState) («to» : String) : Option Sink :=
  match st.sessionSinkTable.lookup «to» with
  | some sink => if sink.enabled then some sink else none
  | none => none

/-- The sweeper's `cleanup`: under the lock, close and remove every
expired pipeline, keeping the rest. -/
def cleanup (st : PLMState) (now : Nat) : PLMState × List Ev :=
  ({ st with
      pipelineTable := st.pipelineTable.filter (fun e => !(e.2.Expired now)) },
   Ev.lock ::
     (st.pipelineTable.filter (fun e => e.2.Expired now)).map
       (fun e => Ev.closePipeline e.2.pid) ++ [Ev.unlock])

namespace Table

variable {V : Type}

@[simp] theorem lookup_nil (key : String) : lookup ([] : Table V) key = none := rfl

@[simp] theorem lookup_cons (k : String) (v : V) (tl : Table V) (key : String) :
    lookup ((k, v) :: tl) key = if k = key then some v else lookup tl key := rfl

@[simp] theorem lookup_erase_self (m : Table V) (key : String) :
    lookup (erase m key) key = none := by
  induction m with
  | nil => rfl
  | cons e tl ih =>
    rcases e with ⟨k, v⟩
    by_cases h : k = key <;> simp [erase, h, ih]

theorem lookup_erase_ne (m : Table V) (key key' : String) (h : key' ≠ key) :
    lookup (erase m key) key' = lookup m key' := by
  induction m with
  | nil => rfl
  | cons e tl ih =>
    rcases e with ⟨k, v⟩
    by_cases hk : k = key
    · subst hk
      simp [erase, Ne.symm h, ih]
    · by_cases hk' : k = key' <;> simp [erase, hk, hk', h, ih]

@[simp] theorem lookup_set_self (m : Table V) (key : String) (v : V) :
    lookup (set m key v) key = some v := by
  simp [set]

theorem lookup_set_ne (m : Table V) (key key' : String) (v : V) (h : key' ≠ key) :
    lookup (set m key v) key' = lookup m key' := by
  simp [set, Ne.symm h, lookup_erase_ne m key key' h]

@[simp] theorem countKey_erase_self (m : Table V) (key : String) :
    countKey (erase m key) key = 0 := by
  induction m with
  | nil => rfl
  | cons e tl ih =>
    rcases e with ⟨k, v⟩
    by_cases h : k = key <;> simp [erase, countKey, h, ih]

@[simp] theorem countKey_set_self (m : Table V) (key : String) (v : V) :
    countKey (set m key v) key = 1 := by
  simp [set, countKey]

end Table

/-- C10: the `sender` argument is irrelevant to pipeline identity and
lookup: `PipelineID` yields the same composite identifier for any two
senders, and `GetPipeline` applied from the same registry state with two
different senders yields the same pipeline and the same resulting state. -/
theorem pipeline_sender_irrelevant :
    ∀ (ns : String) (s1 s2 : Sender) (session : Session) (tgt : String)
      (st : PLMState) (now : Nat),
      PipelineID ns s1 session tgt = PipelineID ns s2 session tgt ∧
      GetPipeline st now ns s1 session tgt = GetPipeline st now ns s2 session tgt :=
  fun _ _ _ _ _ _ _ => ⟨rfl, rfl⟩

/-- C5: `FindSink` returns the sink mapped to `to` if and only if such an
entry exists in the sink table and it is enabled; a disabled entry or a
missing entry yields the "not found" result `none`.  (`FindSink`'s type,
`PLMState → String → Option Sink`, shows it modifies no table.) -/
theorem findSink_spec (st : PLMState) (tgt : String) :
    (∀ sink : Sink, FindSink st tgt = some sink ↔
        st.sessionSinkTable.lookup tgt = some sink ∧ sink.enabled = true) ∧
    (∀ sink : Sink, st.sessionSinkTable.lookup tgt = some sink →
        sink.enabled = false → FindSink st tgt = none) ∧
    (st.sessionSinkTable.lookup tgt = none → FindSink st tgt = none) := by
  refine ⟨fun sink => ?_, fun sink hl he => ?_, fun hl => ?_⟩
  · unfold FindSink
    cases hl : st.sessionSinkTable.lookup tgt with
    | none => simp
    | some k =>
      by_cases he : k.enabled <;> simp [he] <;> intro h <;> simp [h] at he ⊢ <;>
        simp [he]
  · simp [FindSink, hl, he]
  · simp [FindSink, hl]

/-- C6: a `sessionCreate` message whose session payload is absent or whose
external identifier is empty is ignored: the handler leaves the state
(all four tables and the fresh-object counter) unchanged and performs no
event, in particular no `Close` and no creation. -/
theorem sessionCreate_invalid_ignored (st : PLMState) (msg : SessionCreateRequest)
    (h : msg.Session = none ∨ msg.Id = "") :
    sessionCreate st msg = (st, []) := by
  cases h with
  | inl h => simp [sessionCreate, h]
  | inr h => cases hs : msg.Session <;> simp [sessionCreate, hs, h]

/-- C6 witness: the invalid-message cases evaluated on concrete inputs. -/
theorem sessionCreate_invalid_ignored_witness :
    sessionCreate NewPipelineManager
      { Id := "ext-1", Session := none, Room := none } = (NewPipelineManager, []) :=
  sessionCreate_invalid_ignored NewPipelineManager _ (Or.inl rfl)

/-- C3: `GetPipelineByID` returns the pipeline stored under `id` with
`ok = true` on an exact match; on a miss it returns some pipeline of the
table with `ok = true` whenever the table is non-empty, and `(nil, false)`
only when the pipeline table is empty. -/
theorem getPipelineByID_spec (st : PLMState) (id : String) :
    (∀ p, st.pipelineTable.lookup id = some p →
        GetPipelineByID st id = (some p, true)) ∧
    (st.pipelineTable.lookup id = none →
      (st.pipelineTable = [] → GetPipelineByID st id = (none, false)) ∧
      (st.pipelineTable ≠ [] →
        ∃ p, GetPipelineByID st id = (some p, true) ∧
          p ∈ st.pipelineTable.map Prod.snd)) := by
  constructor
  · intro p hp
    simp [GetPipelineByID, hp]
  · intro hmiss
    constructor
    · intro hempty
      simp [GetPipelineByID, hmiss, hempty]
    · intro hne
      cases ht : st.pipelineTable with
      | nil => exact absurd ht hne
      | cons e tl =>
        rcases e with ⟨k, p⟩
        rw [ht] at hmiss
        exact ⟨p, by simp [GetPipelineByID, hmiss, ht], by simp [ht]⟩

/-- C3 witness: both branches evaluated on concrete tables. -/
theorem getPipelineByID_spec_witness :
    GetPipelineByID
      { NewPipelineManager with
          pipelineTable := [("call.a.b", ⟨0, "call", "call.a.b", "a", 99⟩)] }
      "call.a.b" = (some ⟨0, "call", "call.a.b", "a", 99⟩, true) :=
  (getPipelineByID_spec
      { NewPipelineManager with
          pipelineTable := [("call.a.b", ⟨0, "call", "call.a.b", "a", 99⟩)] }
      "call.a.b").1 _ (by decide)

/-- C5 witness: a disabled sink present in the table is reported
"not found". -/
theorem findSink_spec_witness :
    FindSink
      { NewPipelineManager with
          sessionSinkTable := [("s1", { sid := 7, busId := "ext-1", enabled := false })] }
      "s1" = none :=
  (findSink_spec
      { NewPipelineManager with
          sessionSinkTable := [("s1", { sid := 7, busId := "ext-1", enabled := false })] }
      "s1").2.1 { sid := 7, busId := "ext-1", enabled := false } (by decide) rfl

/-- C2: `GetPipeline` computes the composite identifier
`namespace ++ "." ++ session.Id ++ "." ++ to`; a present entry (even if
expired) is refreshed with the configured duration and returned as the
same instance, with nothing removed from the table; a missing entry is
constructed and inserted under the identifier; two calls with the same
arguments return the identical instance (same `pid`), and exactly one
entry is ever mapped to the composite identifier afterwards. -/
theorem getPipeline_spec (st : PLMState) (now1 now2 : Nat) (ns : String)
    (sender : Sender) (session : Session) (tgt : String) :
    PipelineID ns sender session tgt = ns ++ "." ++ session.Id ++ "." ++ tgt ∧
    (∀ p, st.pipelineTable.lookup (PipelineID ns sender session tgt) = some p →
      GetPipeline st now1 ns sender session tgt =
        ({ p with expires := now1 + st.duration },
         { st with pipelineTable :=
                     st.pipelineTable.set (PipelineID ns sender session tgt)
                       ({ p with expires := now1 + st.duration }) })) ∧
    (st.pipelineTable.lookup (PipelineID ns sender session tgt) = none →
      (GetPipeline st now1 ns sender session tgt).2.pipelineTable.lookup
          (PipelineID ns sender session tgt) =
        some (GetPipeline st now1 ns sender session tgt).1) ∧
    (∀ k, k ≠ PipelineID ns sender session tgt →
      (GetPipeline st now1 ns sender session tgt).2.pipelineTable.lookup k =
        st.pipelineTable.lookup k) ∧
    (GetPipeline (GetPipeline st now1 ns sender session tgt).2 now2 ns sender
        session tgt).1.pid =
      (GetPipeline st now1 ns sender session tgt).1.pid ∧
    Table.countKey
      (GetPipeline (GetPipeline st now1 ns sender session tgt).2 now2 ns sender
          session tgt).2.pipelineTable
      (PipelineID ns sender session tgt) = 1 := by
  refine ⟨rfl, ?_, ?_, ?_, ?_, ?_⟩
  · intro p hp
    simp [GetPipeline, hp, Pipeline.Refresh]
  · intro hp
    simp [GetPipeline, hp]
  · intro k hk
    cases hp : st.pipelineTable.lookup (PipelineID ns sender session tgt) with
    | some p => simp [GetPipeline, hp, Table.lookup_set_ne _ _ _ _ hk]
    | none => simp [GetPipeline, hp, NewPipeline, Table.lookup_set_ne _ _ _ _ hk]
  · cases hp : st.pipelineTable.lookup (PipelineID ns sender session tgt) with
    | some p => simp [GetPipeline, hp, Pipeline.Refresh]
    | none => simp [GetPipeline, hp, NewPipeline, Pipeline.Refresh]
  · cases hp : st.pipelineTable.lookup (PipelineID ns sender session tgt) with
    | some p => simp [GetPipeline, hp, Pipeline.Refresh]
    | none => simp [GetPipeline, hp, NewPipeline, Pipeline.Refresh]

/-- C2 witness: the refresh branch evaluated on a concrete table holding
an (expired) pipeline under the composite identifier. -/
theorem getPipeline_spec_witness :
    GetPipeline
      { NewPipelineManager with
          pipelineTable := [("call.a.b", ⟨5, "call", "call.a.b", "a", 0⟩)] }
      100 "call" 0 { Id := "a" } "b" =
      (⟨5, "call", "call.a.b", "a", 100 + 30 * 60⟩,
       { NewPipelineManager with
           pipelineTable :=
             [("call.a.b", ⟨5, "call", "call.a.b", "a", 100 + 30 * 60⟩)] }) :=
  (getPipeline_spec
      { NewPipelineManager with
          pipelineTable := [("call.a.b", ⟨5, "call", "call.a.b", "a", 0⟩)] }
      100 0 "call" 0 { Id := "a" } "b").2.1 ⟨5, "call", "call.a.b", "a", 0⟩
    (by decide)

/-- `Ev.closePipeline` is injective (used to transport counts along
`List.map`). -/
theorem closePipeline_injective : Function.Injective Ev.closePipeline := by
  intro a b h
  injection h

/-- Counting `Close` calls in the sweeper's trace: with pairwise distinct
pipeline identities in the table, an expired entry is closed exactly once
and a live entry never. -/
theorem cleanup_count_aux (l : List (String × Pipeline)) (now : Nat)
    (h : (l.map (fun e => e.2.pid)).Nodup) (e : String × Pipeline) (he : e ∈ l) :
    ((l.filter (fun f => f.2.Expired now)).map
        (fun f => Ev.closePipeline f.2.pid)).count (Ev.closePipeline e.2.pid) =
      if e.2.Expired now then 1 else 0 := by
  have hmap : (l.filter (fun f => f.2.Expired now)).map
      (fun f => Ev.closePipeline f.2.pid) =
      ((l.filter (fun f => f.2.Expired now)).map (fun f => f.2.pid)).map
        Ev.closePipeline := by
    simp [List.map_map, Function.comp]
  rw [hmap, List.count_map_of_injective _ _ closePipeline_injective]
  have hsub : List.Sublist
      ((l.filter (fun f => f.2.Expired now)).map (fun f => f.2.pid))
      (l.map (fun f => f.2.pid)) := (List.filter_sublist l).map _
  by_cases hexp : e.2.Expired now
  · have hmem : e.2.pid ∈ (l.filter (fun f => f.2.Expired now)).map
        (fun f => f.2.pid) :=
      List.mem_map_of_mem _ (List.mem_filter.2 ⟨he, hexp⟩)
    simp [hexp, List.count_eq_one_of_mem (h.sublist hsub) hmem]
  · have hnotmem : e.2.pid ∉ (l.filter (fun f => f.2.Expired now)).map
        (fun f => f.2.pid) := by
      intro hmem
      rcases List.mem_map.1 hmem with ⟨f, hf, hpid⟩
      rcases List.mem_filter.1 hf with ⟨hfl, hfexp⟩
      have : f = e := List.inj_on_of_nodup_map h hfl he hpid
      rw [this] at hfexp
      exact hexp hfexp
    simp [hexp, List.count_eq_zero.2 hnotmem]

/-- C4: each run of the sweeper's `cleanup` removes from the pipeline
table exactly the expired pipelines, closing each removed pipeline exactly
once (given pairwise distinct pipeline identities), and leaves every
non-expired pipeline present and every other component of the state
untouched; in particular a pipeline whose deadline has passed is gone
after the sweep. -/
theorem cleanup_spec (st : PLMState) (now : Nat)
    (hpid : (st.pipelineTable.map (fun e => e.2.pid)).Nodup) :
    (∀ e : String × Pipeline, e ∈ (cleanup st now).1.pipelineTable ↔
        e ∈ st.pipelineTable ∧ e.2.Expired now = false) ∧
    (∀ e : String × Pipeline, e ∈ st.pipelineTable →
        (cleanup st now).2.count (Ev.closePipeline e.2.pid) =
          if e.2.Expired now then 1 else 0) ∧
    (cleanup st now).1.sessionTable = st.sessionTable ∧
    (cleanup st now).1.sessionByBusIDTable = st.sessionByBusIDTable ∧
    (cleanup st now).1.sessionSinkTable = st.sessionSinkTable ∧
    (cleanup st now).1.duration = st.duration ∧
    (cleanup st now).1.nextOid = st.nextOid := by
  refine ⟨?_, ?_, rfl, rfl, rfl, rfl, rfl⟩
  · intro e
    simp [cleanup, List.mem_filter]
  · intro e he
    have hcount := cleanup_count_aux st.pipelineTable now hpid e he
    simpa [cleanup, List.count_cons] using hcount

/-- C4 witness: a sweep over a table holding one expired and one live
pipeline, with distinct identities. -/
theorem cleanup_spec_witness :
    ("old", (⟨1, "call", "old", "a", 3⟩ : Pipeline)) ∈
      ({ NewPipelineManager with
          pipelineTable := [("old", ⟨1, "call", "old", "a", 3⟩),
                            ("new", ⟨2, "call", "new", "a", 50⟩)] } :
        PLMState).pipelineTable ∧
    (cleanup
        { NewPipelineManager with
            pipelineTable := [("old", ⟨1, "call", "old", "a", 3⟩),
                              ("new", ⟨2, "call", "new", "a", 50⟩)] }
        10).2.count (Ev.closePipeline 1) = 1 := by
  refine ⟨by decide, ?_⟩
  have h := (cleanup_spec
      { NewPipelineManager with
          pipelineTable := [("old", ⟨1, "call", "old", "a", 3⟩),
                            ("new", ⟨2, "call", "new", "a", 50⟩)] }
      10 (by decide)).2.1 ("old", ⟨1, "call", "old", "a", 3⟩) (by decide)
  simpa [Pipeline.Expired] using h

/-- C7: a `sessionClose` message with an empty identifier or an unmapped
external identifier is a no-op (no table change, no `Close`, no error);
with a mapped identifier the mapping, session and sink entries are all
removed and the detached sink and session are each closed once. -/
theorem sessionClose_spec (st : PLMState) (id : String) :
    (id = "" → sessionClose st id = (st, [])) ∧
    (st.sessionByBusIDTable.lookup id = none →
      (sessionClose st id).1 = st ∧
      ∀ e ∈ (sessionClose st id).2, e.isClose = false) ∧
    (∀ s, id ≠ "" → st.sessionByBusIDTable.lookup id = some s →
      (sessionClose st id).1.sessionByBusIDTable.lookup id = none ∧
      (sessionClose st id).1.sessionTable.lookup s.Id = none ∧
      (sessionClose st id).1.sessionSinkTable.lookup s.Id = none ∧
      (sessionClose st id).2.count (Ev.closeSession s.Id) = 1 ∧
      (∀ k, st.sessionSinkTable.lookup s.Id = some k →
        (sessionClose st id).2.count (Ev.closeSink k.sid) = 1)) := by
  refine ⟨fun h => by simp [sessionClose, h], ?_, ?_⟩
  · intro hnone
    by_cases hid : id = ""
    · simp [sessionClose, hid, Ev.isClose]
    · simp [sessionClose, hid, hnone, Ev.isClose]
  · intro s hid hsome
    cases hk : st.sessionSinkTable.lookup s.Id with
    | some k =>
      simp [sessionClose, hid, hsome, hk, List.count_cons]
    | none =>
      simp [sessionClose, hid, hsome, hk, List.count_cons]

/-- C7 witness: closing a mapped identifier on a concrete registry closes
the detached session exactly once. -/
theorem sessionClose_spec_witness :
    (sessionClose
        { NewPipelineManager with
            sessionByBusIDTable := [("ext", { Id := "s0" })],
            sessionTable := [("s0", { Id := "s0" })],
            sessionSinkTable := [("s0", { sid := 4, busId := "ext", enabled := true })] }
        "ext").2.count (Ev.closeSession "s0") = 1 :=
  ((sessionClose_spec
      { NewPipelineManager with
          sessionByBusIDTable := [("ext", { Id := "s0" })],
          sessionTable := [("s0", { Id := "s0" })],
          sessionSinkTable := [("s0", { sid := 4, busId := "ext", enabled := true })] }
      "ext").2.2 { Id := "s0" } (by decide) (by decide)).2.2.2.1

/-- C1: at most one local session per external identifier.  Starting from
a state where the identifier is unmapped, replaying the same
`sessionCreate` message twice leaves exactly one live session mapped to
the identifier; during the second call the prior session is removed from
the session table, its sink from the sink table, and the prior session is
closed exactly once, before the new session is installed (the `Close`
events precede the `installSession` event in the trace). -/
theorem sessionCreate_replay_spec (st : PLMState) (msg : SessionCreateRequest)
    (pl : SessionPayload) (hpl : msg.Session = some pl) (hid : msg.Id ≠ "")
    (hunmapped : st.sessionByBusIDTable.lookup msg.Id = none)
    (hfresh : localId (st.nextOid + 2) ≠ localId st.nextOid) :
    ∀ r1, r1 = sessionCreate st msg → ∀ r2, r2 = sessionCreate r1.1 msg →
      r1.2 = [Ev.lock, Ev.installSession (localId st.nextOid), Ev.unlock] ∧
      r1.1.sessionByBusIDTable.lookup msg.Id = some { Id := localId st.nextOid } ∧
      r1.1.sessionTable.lookup (localId st.nextOid) =
        some { Id := localId st.nextOid } ∧
      r2.2 = [Ev.lock, Ev.closeSession (localId st.nextOid),
        Ev.closeSink (st.nextOid + 1),
        Ev.installSession (localId (st.nextOid + 2)), Ev.unlock] ∧
      (r1.2 ++ r2.2).count (Ev.closeSession (localId st.nextOid)) = 1 ∧
      Table.countKey r2.1.sessionByBusIDTable msg.Id = 1 ∧
      r2.1.sessionByBusIDTable.lookup msg.Id =
        some { Id := localId (st.nextOid + 2) } ∧
      r2.1.sessionTable.lookup (localId st.nextOid) = none ∧
      r2.1.sessionSinkTable.lookup (localId st.nextOid) = none ∧
      r2.1.sessionTable.lookup (localId (st.nextOid + 2)) =
        some { Id := localId (st.nextOid + 2) } := by
  intro r1 hr1 r2 hr2
  have e1 : sessionCreate st msg =
      ({ st with
          sessionByBusIDTable :=
            st.sessionByBusIDTable.set msg.Id { Id := localId st.nextOid },
          sessionTable :=
            st.sessionTable.set (localId st.nextOid) { Id := localId st.nextOid },
          sessionSinkTable :=
            st.sessionSinkTable.set (localId st.nextOid)
              ({ sid := st.nextOid + 1, busId := msg.Id, enabled := true }),
          nextOid := st.nextOid + 2 },
       [Ev.lock, Ev.installSession (localId st.nextOid), Ev.unlock]) := by
    simp [sessionCreate, hpl, hid, hunmapped, sessionCreateInstall, CreateSession,
      CreateSink]
  subst hr1
  subst hr2
  rw [e1]
  have e2 : sessionCreate
      ({ st with
          sessionByBusIDTable :=
            st.sessionByBusIDTable.set msg.Id { Id := localId st.nextOid },
          sessionTable :=
            st.sessionTable.set (localId st.nextOid) { Id := localId st.nextOid },
          sessionSinkTable :=
            st.sessionSinkTable.set (localId st.nextOid)
              ({ sid := st.nextOid + 1, busId := msg.Id, enabled := true }),
          nextOid := st.nextOid + 2 }) msg =
      ({ st with
          sessionByBusIDTable :=
            (st.sessionByBusIDTable.set msg.Id { Id := localId st.nextOid }).set
              msg.Id { Id := localId (st.nextOid + 2) },
          sessionTable :=
            ((st.sessionTable.set (localId st.nextOid)
                { Id := localId st.nextOid }).erase (localId st.nextOid)).set
              (localId (st.nextOid + 2)) { Id := localId (st.nextOid + 2) },
          sessionSinkTable :=
            ((st.sessionSinkTable.set (localId st.nextOid)
                ({ sid := st.nextOid + 1, busId := msg.Id,
                   enabled := true })).erase (localId st.nextOid)).set
              (localId (st.nextOid + 2))
              ({ sid := st.nextOid + 1, busId := msg.Id, enabled := true }),
          nextOid := st.nextOid + 3 },
       [Ev.lock, Ev.closeSession (localId st.nextOid),
        Ev.closeSink (st.nextOid + 1),
        Ev.installSession (localId (st.nextOid + 2)), Ev.unlock]) := by
    simp [sessionCreate, hpl, hid, sessionCreateInstall, CreateSession, CreateSink]
  rw [e2]
  refine ⟨rfl, by simp, by simp, rfl, ?_, by simp [Table.countKey, Table.set], by simp,
    ?_, ?_, by simp⟩
  · simp [List.count_cons, List.count_append, Ev.isClose]
  · rw [Table.lookup_set_ne _ _ _ _ (Ne.symm hfresh), Table.lookup_erase_self]
  · rw [Table.lookup_set_ne _ _ _ _ (Ne.symm hfresh), Table.lookup_erase_self]

/-- C1 witness: replaying a concrete create message twice from the empty
registry leaves exactly one live session mapped to the identifier. -/
theorem sessionCreate_replay_spec_witness :
    Table.countKey
      (sessionCreate
        (sessionCreate NewPipelineManager
          { Id := "ext", Session := some { Status := "a", Userid := "u" },
            Room := none }).1
        { Id := "ext", Session := some { Status := "a", Userid := "u" },
          Room := none }).1.sessionByBusIDTable "ext" = 1 :=
  (sessionCreate_replay_spec NewPipelineManager
      { Id := "ext", Session := some { Status := "a", Userid := "u" }, Room := none }
      { Status := "a", Userid := "u" } rfl (by decide) rfl (by decide)
      _ rfl _ rfl).2.2.2.2.2.1

/-- C8 counterexample: on a registry where the external identifier is
already mapped and has a sink, `sessionCreate` performs `Close` calls on
the displaced session and sink while the registry lock is held, refuting
the claim that neither bus handler ever closes under the lock. -/
theorem sessionCreate_closes_while_locked :
    anyLockedSat Ev.isClose
      (sessionCreate
        { NewPipelineManager with
            sessionByBusIDTable := [("ext", { Id := "s0" })],
            sessionTable := [("s0", { Id := "s0" })],
            sessionSinkTable := [("s0", { sid := 5, busId := "ext", enabled := true })] }
        { Id := "ext", Session := some { Status := "x", Userid := "y" },
          Room := none }).2 0 = true := by
  decide

/-- C8 (amended): in `sessionCreate` every `Close` of the displaced
session and sink happens while the registry lock is held; in
`sessionClose` the detached sink is closed while the lock is held and the
detached session is closed only after the lock is released. -/
theorem handlers_lock_close_discipline (st st' : PLMState)
    (msg : SessionCreateRequest) (id : String) :
    anyUnlockedSat Ev.isClose (sessionCreate st msg).2 0 = false ∧
    anyUnlockedSat Ev.isSinkClose (sessionClose st' id).2 0 = false ∧
    anyLockedSat Ev.isSessionClose (sessionClose st' id).2 0 = false := by
  refine ⟨?_, ?_, ?_⟩
  · cases hpl : msg.Session with
    | none => simp [sessionCreate, hpl, anyUnlockedSat]
    | some pl =>
      by_cases hid : msg.Id = ""
      · simp [sessionCreate, hpl, hid, anyUnlockedSat]
      · cases hmap : st.sessionByBusIDTable.lookup msg.Id with
        | none =>
          simp [sessionCreate, hpl, hid, hmap, sessionCreateInstall, CreateSession,
            CreateSink, anyUnlockedSat, Ev.isClose]
        | some ps =>
          cases hk : st.sessionSinkTable.lookup ps.Id with
          | some k =>
            simp [sessionCreate, hpl, hid, hmap, hk, sessionCreateInstall,
              CreateSession, CreateSink, anyUnlockedSat, Ev.isClose]
          | none =>
            simp [sessionCreate, hpl, hid, hmap, hk, sessionCreateInstall,
              CreateSession, CreateSink, anyUnlockedSat, Ev.isClose]
  · by_cases hid : id = ""
    · simp [sessionClose, hid, anyUnlockedSat]
    · cases hmap : st'.sessionByBusIDTable.lookup id with
      | none => simp [sessionClose, hid, hmap, anyUnlockedSat]
      | some s =>
        cases hk : st'.sessionSinkTable.lookup s.Id with
        | some k =>
          simp [sessionClose, hid, hmap, hk, anyUnlockedSat, Ev.isSinkClose]
        | none =>
          simp [sessionClose, hid, hmap, hk, anyUnlockedSat, Ev.isSinkClose]
  · by_cases hid : id = ""
    · simp [sessionClose, hid, anyLockedSat]
    · cases hmap : st'.sessionByBusIDTable.lookup id with
      | none => simp [sessionClose, hid, hmap, anyLockedSat]
      | some s =>
        cases hk : st'.sessionSinkTable.lookup s.Id with
        | some k =>
          simp [sessionClose, hid, hmap, hk, anyLockedSat, Ev.isSessionClose]
        | none =>
          simp [sessionClose, hid, hmap, hk, anyLockedSat, Ev.isSessionClose]

/-- C9: when `sessionCreate` displaces a mapping that had a sink, that
very sink object — just closed — is reinstalled as the sink of the newly
created session and no fresh sink is constructed (the object counter
advances only for the session); a fresh sink is constructed via
`CreateSink` only when the displaced mapping had no sink or no prior
mapping existed. -/
theorem sessionCreate_sink_reuse_spec (st : PLMState) (msg : SessionCreateRequest)
    (pl : SessionPayload) (hpl : msg.Session = some pl) (hid : msg.Id ≠ "") :
    (∀ ps k, st.sessionByBusIDTable.lookup msg.Id = some ps →
      st.sessionSinkTable.lookup ps.Id = some k →
      (sessionCreate st msg).2.count (Ev.closeSink k.sid) = 1 ∧
      (sessionCreate st msg).1.sessionSinkTable.lookup (localId st.nextOid) =
        some k ∧
      (sessionCreate st msg).1.nextOid = st.nextOid + 1) ∧
    (∀ ps, st.sessionByBusIDTable.lookup msg.Id = some ps →
      st.sessionSinkTable.lookup ps.Id = none →
      (sessionCreate st msg).1.sessionSinkTable.lookup (localId st.nextOid) =
        some { sid := st.nextOid + 1, busId := msg.Id, enabled := true } ∧
      (sessionCreate st msg).1.nextOid = st.nextOid + 2) ∧
    (st.sessionByBusIDTable.lookup msg.Id = none →
      (sessionCreate st msg).1.sessionSinkTable.lookup (localId st.nextOid) =
        some { sid := st.nextOid + 1, busId := msg.Id, enabled := true } ∧
      (sessionCreate st msg).1.nextOid = st.nextOid + 2) := by
  refine ⟨?_, ?_, ?_⟩
  · intro ps k hmap hk
    simp [sessionCreate, hpl, hid, hmap, hk, sessionCreateInstall, CreateSession,
      CreateSink, List.count_cons]
  · intro ps hmap hk
    simp [sessionCreate, hpl, hid, hmap, hk, sessionCreateInstall, CreateSession,
      CreateSink]
  · intro hmap
    simp [sessionCreate, hpl, hid, hmap, sessionCreateInstall, CreateSession,
      CreateSink]

/-- C9 witness: replacing a concrete mapping that had a sink reinstalls
the closed sink object for the new session. -/
theorem sessionCreate_sink_reuse_spec_witness :
    (sessionCreate
        { NewPipelineManager with
            sessionByBusIDTable := [("ext", { Id := "s0" })],
            sessionTable := [("s0", { Id := "s0" })],
            sessionSinkTable := [("s0", { sid := 9, busId := "ext", enabled := true })] }
        { Id := "ext", Session := some { Status := "x", Userid := "y" },
          Room := none }).1.sessionSinkTable.lookup (localId 0) =
      some { sid := 9, busId := "ext", enabled := true } :=
  ((sessionCreate_sink_reuse_spec
      { NewPipelineManager with
          sessionByBusIDTable := [("ext", { Id := "s0" })],
          sessionTable := [("s0", { Id := "s0" })],
          sessionSinkTable := [("s0", { sid := 9, busId := "ext", enabled := true })] }
      { Id := "ext", Session := some { Status := "x", Userid := "y" }, Room := none }
      { Status := "x", Userid := "y" } rfl (by decide)).1 { Id := "s0" }
      { sid := 9, busId := "ext", enabled := true } (by decide) (by decide)).2.1

end Channelling
